import Mathlib

/-!
Shallow embedding of the storno-cli core: the session/config store
(`src/config.ts`) and the authenticated request executor `apiRequest`
(`src/client.ts`, provided as `src/unnamed/part_000`).

Modelling conventions:
* JS strings are `String`, JS numbers appearing in query values are `Int`.
* `null`/`undefined`-able fields are `Option`.
* The HTTP transport (`fetch`) is an oracle `w : Nat → Except String Response`:
  the n-th `fetch` issued by one executor call receives `w n`; `.error msg`
  models a rejected promise (transport error), `.ok r` a received response.
* A `Response` carries its observable accessors: `status`, the
  `content-type` header, `bodyText : Option String` (`none` = `res.text()`
  rejects), `bodyJson : Option Json` (`none` = `res.json()` rejects,
  i.e. the body is not valid JSON), and `bodyBytes : Option (List Nat)`
  (`none` = `res.arrayBuffer()` rejects).
* The file system (`readFileSync`) is `fs : String → Option (List Nat)`;
  `none` means the read throws.
* The executor records the trace of outbound requests it issues, and an
  uncaught JS exception is the `.threw` outcome.
-/

/-- Minimal JSON value universe, enough for the bodies the client touches. -/
inductive Json where
  | null : Json
  | bool : Bool → Json
  | num : Int → Json
  | str : String → Json
  | arr : List Json → Json
  | obj : List (String × Json) → Json
deriving Repr, BEq

/-- Field lookup on a JSON object (`undefined` → `none`); non-objects have no
fields, matching JS property access on the cast `data as Record<...>`. -/
def Json.getField : Json → String → Option Json
  | .obj fields, key => (fields.find? (fun p => p.1 == key)).map Prod.snd
  | _, _ => none

/-- The string value of a JSON field, `none` when absent or not a string. -/
def Json.getString? (j : Json) (key : String) : Option String :=
  match j.getField key with
  | some (.str s) => some s
  | _ => none

/-- JS truthiness of a JSON value (used by `errBody.message || errBody.error`). -/
def Json.truthy : Json → Bool
  | .null => false
  | .bool b => b
  | .num n => n != 0
  | .str s => s != ""
  | .arr _ => true
  | .obj _ => true

/-- JS `String(...)` coercion of a JSON value, approximated for the scalar
cases the error-extraction path can produce. -/
def Json.coerceStr : Json → String
  | .null => "null"
  | .bool b => if b then "true" else "false"
  | .num n => toString n
  | .str s => s
  | .arr _ => ""
  | .obj _ => "[object Object]"

/-- The session/config record (`Config` in `src/config.ts`). -/
structure Config where
  baseUrl : String
  token : Option String
  refreshToken : Option String
  companyId : Option String
  email : Option String
  password : Option String
deriving Repr, BEq

/-- Values a query map can hold (`string | number | boolean | undefined`, and
`null` reachable at runtime). -/
inductive QueryValue where
  | undef : QueryValue
  | jsNull : QueryValue
  | str : String → QueryValue
  | num : Int → QueryValue
  | bool : Bool → QueryValue
deriving Repr, BEq

/-- The guard `value !== undefined && value !== null && value !== ''`. -/
def QueryValue.kept : QueryValue → Bool
  | .undef => false
  | .jsNull => false
  | .str s => s != ""
  | .num _ => true
  | .bool _ => true

/-- `String(value)` for query values. -/
def QueryValue.toStr : QueryValue → String
  | .undef => "undefined"
  | .jsNull => "null"
  | .str s => s
  | .num n => toString n
  | .bool b => if b then "true" else "false"

/-- The `RequestOptions` bag of `apiRequest`. -/
structure RequestOptions where
  method : Option String := none
  body : Option Json := none
  query : Option (List (String × QueryValue)) := none
  headers : List (String × String) := []
  companyId : Option String := none
  noAuth : Bool := false
  binary : Bool := false
  filePath : Option String := none
  fileFieldName : Option String := none
  formFields : Option (List (String × String)) := none
deriving Repr, BEq

/-- An HTTP response as observed by the client code. `none` in `bodyText`,
`bodyJson`, `bodyBytes` means the corresponding read (`res.text()`,
`res.json()`, `res.arrayBuffer()`) rejects. -/
structure Response where
  status : Nat
  contentType : Option String
  bodyText : Option String
  bodyJson : Option Json
  bodyBytes : Option (List Nat)
deriving Repr, BEq

/-- `res.ok`: status in the inclusive range 200–299. -/
def Response.isOk (r : Response) : Bool :=
  200 ≤ r.status && r.status ≤ 299

/-- Outbound request body: JSON-serialized object, multipart form, or none. -/
inductive OutBody where
  | empty : OutBody
  | jsonBody : Json → OutBody
  | multipart : String → String → List Nat → List (String × String) → OutBody
deriving Repr, BEq, Inhabited

/-- One outbound request as handed to `fetch`. -/
structure FetchRequest where
  url : String
  queryParams : List (String × String)
  method : String
  headers : List (String × String)
  body : OutBody
deriving Repr, BEq, Inhabited

/-- JS object property write: replace the value when the key exists, else
append the pair (models both `obj[k] = v` and `URLSearchParams.set`). -/
def setAssoc (l : List (String × String)) (k v : String) : List (String × String) :=
  if l.any (fun p => p.1 == k) then
    l.map (fun p => if p.1 == k then (k, v) else p)
  else
    l ++ [(k, v)]

/-- First-match lookup in an assoc list. -/
def lookupAssoc (l : List (String × String)) (k : String) : Option String :=
  (l.find? (fun p => p.1 == k)).map Prod.snd

/-- The query-parameter loop: for each entry, keep it unless the value is
`undefined`, `null` or the empty string, coercing kept values to strings. -/
def buildQueryParams (q : List (String × QueryValue)) : List (String × String) :=
  q.foldl (fun acc p => if p.2.kept then setAssoc acc p.1 p.2.toStr else acc) []

/-- Rendering of one query pair (encoding elided: claims are key/value level). -/
def renderPair (p : String × String) : String :=
  p.1 ++ "=" ++ p.2

/-- Rendering of the search params as a query string. -/
def renderQuery : List (String × String) → String
  | [] => ""
  | ps => "?" ++ String.intercalate "&" (ps.map renderPair)

/-- The resolved absolute URL (`new URL(path, baseUrl)` with search params).
URL resolution is modelled as total concatenation; the claims only need
endpoint identity, not RFC 3986 details. Limitation: `new URL` throws a
TypeError on a malformed base URL (client line 81, unguarded) — that throw
path is outside this string model and is called out in the C4 amendment. -/
def renderUrl (base path : String) (params : List (String × String)) : String :=
  base ++ path ++ renderQuery params

/-- Result of one executor call. -/
inductive ApiResult where
  | success : Nat → Json → ApiResult
  | successText : Nat → String → ApiResult
  | successBinary : Nat → String → Option String → ApiResult
  | successNull : Nat → ApiResult
  | failure : Nat → String → Option Json → ApiResult
deriving Repr, BEq

/-- What `apiRequest` does to its JS caller: return a value, or throw. -/
inductive Outcome where
  | result : ApiResult → Outcome
  | threw : String → Outcome
deriving Repr, BEq

/-- Base64 alphabet. -/
def b64Alphabet : String :=
  "ABCDEFGHIJKLMNOPQRSTUVWXYZabcdefghijklmnopqrstuvwxyz0123456789+/"

def b64Char (n : Nat) : Char := b64Alphabet.toList.getD n 'A'

/-- Standard base64 encoding of a byte list (`Buffer.toString('base64')`). -/
def base64Encode : List Nat → String
  | [] => ""
  | [a] =>
      String.mk [b64Char (a / 4), b64Char (a % 4 * 16)] ++ "=="
  | [a, b] =>
      String.mk [b64Char (a / 4), b64Char (a % 4 * 16 + b / 16),
        b64Char (b % 16 * 4)] ++ "="
  | a :: b :: c :: rest =>
      String.mk [b64Char (a / 4), b64Char (a % 4 * 16 + b / 16),
        b64Char (b % 16 * 4 + c / 64), b64Char (c % 64)] ++ base64Encode rest

/-- Splitting a character list on `/` (structural, kernel-computable). -/
def splitSlash : List Char → List (List Char)
  | [] => [[]]
  | c :: rest =>
    if c = '/' then [] :: splitSlash rest
    else
      match splitSlash rest with
      | [] => [[c]]
      | h :: t => (c :: h) :: t

/-- `basename` of a path: the last `/`-separated component (trailing-slash
normalization of the library function elided; no claim exercises it). -/
def jsBasename (p : String) : String :=
  String.mk ((splitSlash p.toList).getLastD p.toList)

/-- Error text of a non-OK JSON body:
`(errBody.message) || (errBody.error) || "HTTP <status>"`. -/
def jsonErrText (j : Json) (status : Nat) : String :=
  match j.getField "message" with
  | some m => if m.truthy then m.coerceStr else
      match j.getField "error" with
      | some e => if e.truthy then e.coerceStr else "HTTP " ++ toString status
      | none => "HTTP " ++ toString status
  | none =>
      match j.getField "error" with
      | some e => if e.truthy then e.coerceStr else "HTTP " ++ toString status
      | none => "HTTP " ++ toString status

/-- Whether a character list begins with another (structural). -/
def beginsWith : List Char → List Char → Bool
  | _, [] => true
  | [], _ :: _ => false
  | h :: t, n :: m => h = n && beginsWith t m

/-- Substring test on character lists (structural, kernel-computable). -/
def hasSub (needle : List Char) : List Char → Bool
  | [] => needle.isEmpty
  | c :: t => beginsWith (c :: t) needle || hasSub needle t

/-- JS `includes` on the content-type header:
`(res.headers.get('content-type') || '').includes('application/json')`. -/
def contentTypeIsJson (ct : Option String) : Bool :=
  hasSub "application/json".toList (ct.getD "").toList

/-- The response-parsing tail of `apiRequest` (source lines 165–212): binary
branch first, then 204, then non-JSON content-type, then JSON parsing.
The `res.text()` reads carry `.catch` fallbacks and `res.json()` sits in a
try/catch, but `await res.arrayBuffer()` on the binary-OK path (line 171) is
unguarded: a failing body read there is an uncaught throw. -/
def parseResponse (binary : Bool) (r : Response) : Outcome :=
  if binary then
    if !r.isOk then
      .result (.failure r.status (r.bodyText.getD "Unknown error") none)
    else
      match r.bodyBytes with
      | none => .threw "Failed to read response body"
      | some bytes =>
        .result (.successBinary r.status (base64Encode bytes) r.contentType)
  else if r.status == 204 then
    .result (.successNull 204)
  else if !contentTypeIsJson r.contentType then
    let text := r.bodyText.getD ""
    if !r.isOk then
      .result (.failure r.status
        (if text == "" then "HTTP " ++ toString r.status else text) none)
    else
      .result (.successText r.status text)
  else
    match r.bodyJson with
    | none => .result (.failure r.status "Failed to parse JSON response" none)
    | some j =>
      if !r.isOk then
        .result (.failure r.status (jsonErrText j r.status) (some j))
      else
        .result (.success r.status j)

/-- The Authorization header value for the initial request: API keys
(prefix `af_`) verbatim, all other tokens Bearer-wrapped. -/
def authHeaderValue (token : String) : String :=
  if token.startsWith "af_" then token else "Bearer " ++ token

/-- `\x60Bearer ${getConfig().token}\x60` on the retry path; a template
literal stringifies `undefined`. -/
def bearerOf : Option String → String
  | some t => "Bearer " ++ t
  | none => "Bearer undefined"

/-- JS truthiness of a nullable string: `null`/`undefined` and `""` are falsy. -/
def optTruthy (o : Option String) : Bool :=
  o.getD "" != ""

/-- The Authorization-injection step (source lines 95–100). -/
def withAuthHeader (cfg : Config) (opts : RequestOptions) : List (String × String) :=
  if !opts.noAuth && optTruthy cfg.token then
    setAssoc opts.headers "Authorization" (authHeaderValue (cfg.token.getD ""))
  else opts.headers

/-- `companyId || config.companyId` (source line 102, JS truthiness). -/
def effectiveCompanyId (cfg : Config) (opts : RequestOptions) : Option String :=
  if optTruthy opts.companyId then opts.companyId else cfg.companyId

/-- The `X-Company`-injection step (source lines 102–105). -/
def withCompanyHeader (cfg : Config) (opts : RequestOptions)
    (h1 : List (String × String)) : List (String × String) :=
  if optTruthy (effectiveCompanyId cfg opts) then
    setAssoc h1 "X-Company" ((effectiveCompanyId cfg opts).getD "")
  else h1

/-- Headers after the computed-header phase (source lines 90–105): caller
headers, then Authorization (unless `noAuth` or no token), then `X-Company`
when a company id resolves. -/
def buildHeaders (cfg : Config) (opts : RequestOptions) : List (String × String) :=
  withCompanyHeader cfg opts (withAuthHeader cfg opts)

/-- The refresh request issued by `refreshAccessToken` (source lines 54–58). -/
def mkRefreshRequest (cfg : Config) (rt : String) : FetchRequest :=
  { url := cfg.baseUrl ++ "/api/auth/token/refresh"
    queryParams := []
    method := "POST"
    headers := [("Content-Type", "application/json")]
    body := .jsonBody (.obj [("refresh_token", .str rt)]) }

/-- Transport oracle: the n-th `fetch` of one executor call yields `w n`. -/
def Transport := Nat → Except String Response

/-- File-system oracle for `readFileSync`; `none` = the read throws. -/
def FileSys := String → Option (List Nat)

/-- Everything one `apiRequest` call produces: the outcome for the caller,
the final config (refresh mutates it), and the outbound request trace. -/
structure RunResult where
  outcome : Outcome
  finalCfg : Config
  trace : List FetchRequest
deriving Repr, BEq

/-- Outcome of `refreshAccessToken` given the response `w 1` it sees:
`none` = returned `false`, `some cfg'` = returned `true` having stored
the token pair. Fidelity notes: a transport error or a non-OK status or a
JSON parse failure all return `false` (caught/guarded in the source); the
unchecked cast means a missing/non-string field stores `undefined`; a
truthy non-string field (stored as-is in JS) is likewise approximated as
`undefined`, since the model's tokens are `Option String`. -/
def refreshStep (cfg : Config) (resp : Except String Response) : Option Config :=
  match resp with
  | .error _ => none
  | .ok r =>
    if !r.isOk then none
    else
      match r.bodyJson with
      | none => none
      | some j =>
        some { cfg with token := j.getString? "token",
                        refreshToken := j.getString? "refresh_token" }

/-- Body construction (source lines 107–125): multipart when a file path is
given (the JSON `body` option is then ignored and no content-type is set),
else JSON serialization with the `Content-Type: application/json` header,
else no body. `readFileSync` is NOT guarded by any try/catch: a failing read
is an uncaught exception, modelled as `.error`. -/
def buildBody (cfg : Config) (opts : RequestOptions) (fs : FileSys) :
    Except String (OutBody × List (String × String)) :=
  match opts.filePath with
  | some fp =>
    match fs fp with
    | none => .error ("ENOENT: no such file or directory, open " ++ fp)
    | some bytes =>
      .ok (.multipart (opts.fileFieldName.getD "file") (jsBasename fp)
            bytes (opts.formFields.getD []), buildHeaders cfg opts)
  | none =>
    match opts.body with
    | some b =>
      .ok (.jsonBody b, setAssoc (buildHeaders cfg opts) "Content-Type" "application/json")
    | none => .ok (.empty, buildHeaders cfg opts)

/-- The original outbound request built from config, path and options. -/
def mkMainRequest (cfg : Config) (path : String) (opts : RequestOptions)
    (requestBody : OutBody) (hdrs : List (String × String)) : FetchRequest :=
  { url := renderUrl cfg.baseUrl path (buildQueryParams (opts.query.getD []))
    queryParams := buildQueryParams (opts.query.getD [])
    method := opts.method.getD "GET"
    headers := hdrs
    body := requestBody }

/-- The retried request (source lines 149–154): same request, with the
Authorization header overwritten by `Bearer <refreshed token>`. -/
def mkRetryRequest (cfg : Config) (cfg2 : Config) (path : String)
    (opts : RequestOptions) (requestBody : OutBody)
    (hdrs : List (String × String)) : FetchRequest :=
  { mkMainRequest cfg path opts requestBody hdrs with
      headers := setAssoc hdrs "Authorization" (bearerOf cfg2.token) }

/-- The executor after body construction succeeded: issue the request, run
the 401 auto-refresh protocol (source lines 145–163), parse the final
response (source lines 165–212). -/
def apiRequestCore (cfg : Config) (w : Transport) (path : String)
    (opts : RequestOptions) (requestBody : OutBody)
    (hdrs : List (String × String)) : RunResult :=
  match w 0 with
  | .error err =>
    { outcome := .result (.failure 0 ("Network error: " ++ err) none)
      finalCfg := cfg, trace := [mkMainRequest cfg path opts requestBody hdrs] }
  | .ok res0 =>
    if res0.status == 401 && !opts.noAuth && optTruthy cfg.refreshToken then
      match refreshStep cfg (w 1) with
      | none =>
        { outcome := parseResponse opts.binary res0
          finalCfg := cfg
          trace := [mkMainRequest cfg path opts requestBody hdrs,
                    mkRefreshRequest cfg (cfg.refreshToken.getD "")] }
      | some cfg2 =>
        match w 2 with
        | .error err =>
          { outcome := .result
              (.failure 0 ("Network error after token refresh: " ++ err) none)
            finalCfg := cfg2
            trace := [mkMainRequest cfg path opts requestBody hdrs,
                      mkRefreshRequest cfg (cfg.refreshToken.getD ""),
                      mkRetryRequest cfg cfg2 path opts requestBody hdrs] }
        | .ok res2 =>
          { outcome := parseResponse opts.binary res2
            finalCfg := cfg2
            trace := [mkMainRequest cfg path opts requestBody hdrs,
                      mkRefreshRequest cfg (cfg.refreshToken.getD ""),
                      mkRetryRequest cfg cfg2 path opts requestBody hdrs] }
    else
      { outcome := parseResponse opts.binary res0
        finalCfg := cfg, trace := [mkMainRequest cfg path opts requestBody hdrs] }

/-- The executor `apiRequest` (source lines 73–212), as a pure function of
the config, the transport and file-system oracles, the path and options.
(The model assumes `path` carries no query component of its own.) -/
def apiRequest (cfg : Config) (w : Transport) (fs : FileSys)
    (path : String) (opts : RequestOptions) : RunResult :=
  match buildBody cfg opts fs with
  | .error msg => { outcome := .threw msg, finalCfg := cfg, trace := [] }
  | .ok bh => apiRequestCore cfg w path opts bh.1 bh.2

/-! The session/config store (`src/config.ts`): a lazily initialized
process-wide record, read by `getConfig` and shallow-merged by
`updateConfig`. The store state is `Option Config` (`_config`), and the
environment is a record of the `STORNO_*` variables. -/

/-- The `STORNO_*` environment variables (absent = `none`). -/
structure Env where
  baseUrl : Option String := none
  token : Option String := none
  refreshToken : Option String := none
  companyId : Option String := none
  email : Option String := none
  password : Option String := none
deriving Repr, BEq

/-- `process.env.X || <default>` (JS `||`: empty string falls back too). -/
def envOr (v : Option String) (d : String) : String :=
  if optTruthy v then v.getD "" else d

/-- `process.env.X || null`. -/
def envOrNull (v : Option String) : Option String :=
  if optTruthy v then v else none

/-- `.replace(/\/$/, '')`: strip a single trailing slash. -/
def stripTrailingSlash (s : String) : String :=
  match s.toList.getLast? with
  | some '/' => String.mk s.toList.dropLast
  | _ => s

/-- The record built on first access (source `config.ts` lines 26–33). -/
def initConfig (env : Env) : Config :=
  { baseUrl := stripTrailingSlash (envOr env.baseUrl "https://api.storno.ro")
    token := envOrNull env.token
    refreshToken := envOrNull env.refreshToken
    companyId := envOrNull env.companyId
    email := envOrNull env.email
    password := envOrNull env.password }

/-- `getConfig()`: initialize on first access, then return the record.
Returns the value read and the store state after the call. -/
def getConfigOp (env : Env) (st : Option Config) : Config × Option Config :=
  match st with
  | none => (initConfig env, some (initConfig env))
  | some c => (c, some c)

/-- `Partial<Config>`: `some v` means the update object carries the field. -/
structure ConfigUpdate where
  baseUrl : Option String := none
  token : Option (Option String) := none
  refreshToken : Option (Option String) := none
  companyId : Option (Option String) := none
  email : Option (Option String) := none
  password : Option (Option String) := none
deriving Repr, BEq

/-- `Object.assign(config, updates)`: fields present in the update replace
the stored ones. -/
def applyUpdate (c : Config) (u : ConfigUpdate) : Config :=
  { baseUrl := u.baseUrl.getD c.baseUrl
    token := u.token.getD c.token
    refreshToken := u.refreshToken.getD c.refreshToken
    companyId := u.companyId.getD c.companyId
    email := u.email.getD c.email
    password := u.password.getD c.password }

/-- `updateConfig(updates)` (source `config.ts` lines 38–41): force
initialization via `getConfig`, then shallow-merge in place. -/
def updateConfigOp (env : Env) (st : Option Config) (u : ConfigUpdate) : Option Config :=
  some (applyUpdate (getConfigOp env st).1 u)

/-- Whether an outcome is a returned value (as opposed to a thrown
exception). -/
def Outcome.isResult : Outcome → Bool
  | .result _ => true
  | .threw _ => false

/-- Whether a result is the `Failure` variant of the tagged union. -/
def ApiResult.isFailure : ApiResult → Bool
  | .failure _ _ _ => true
  | _ => false

/-- The `status` field of a result. -/
def ApiResult.statusOf : ApiResult → Nat
  | .success s _ => s
  | .successText s _ => s
  | .successBinary s _ _ => s
  | .successNull s => s
  | .failure s _ _ => s

/-- Whether an outcome is a returned `Failure` value. -/
def Outcome.isFailure : Outcome → Bool
  | .result (.failure _ _ _) => true
  | _ => false

/-- The `status` field of a returned value, `none` for a thrown exception. -/
def Outcome.statusOf? : Outcome → Option Nat
  | .result a => some a.statusOf
  | .threw _ => none

/-- The response the executor ends up parsing, mirroring the refresh control
flow of source lines 145–163: the first response unless it is a 401 with the
refresh guard satisfied, in which case the original 401 again when the
refresh fails, else the retried response; `none` when a transport error
preempts parsing. -/
def finalResponse (cfg : Config) (w : Transport) (opts : RequestOptions) :
    Option Response :=
  match w 0 with
  | .error _ => none
  | .ok res0 =>
    if res0.status == 401 && !opts.noAuth && optTruthy cfg.refreshToken then
      match refreshStep cfg (w 1) with
      | none => some res0
      | some _ =>
        match w 2 with
        | .error _ => none
        | .ok res2 => some res2
    else some res0

/-! ### Concrete fixtures (sessions, responses, transports, file systems) -/

/-- A session holding an `af_`-prefixed API key and a refresh token. -/
def cfgKey : Config :=
  { baseUrl := "https://api.storno.ro", token := some "af_key1",
    refreshToken := some "rt1", companyId := none, email := none, password := none }

/-- A session holding an ordinary JWT and a refresh token. -/
def cfgJwt : Config :=
  { baseUrl := "https://api.storno.ro", token := some "tok1",
    refreshToken := some "rt1", companyId := none, email := none, password := none }

/-- A 401 response with a JSON error body. -/
def resp401 : Response :=
  { status := 401, contentType := some "application/json",
    bodyText := some "\x7b\x7d", bodyJson := some (.obj [("message", .str "expired")]),
    bodyBytes := some [] }

/-- A successful JSON response. -/
def resp200 : Response :=
  { status := 200, contentType := some "application/json",
    bodyText := some "\x7b\x7d", bodyJson := some (.obj [("a", .num 1)]),
    bodyBytes := some [] }

/-- A successful refresh response carrying an `af_`-prefixed new token. -/
def respRefreshOk : Response :=
  { status := 200, contentType := some "application/json", bodyText := none,
    bodyJson := some (.obj [("token", .str "af_new"), ("refresh_token", .str "rt2")]),
    bodyBytes := some [] }

/-- A failed (non-OK) refresh response. -/
def respRefreshBad : Response :=
  { status := 500, contentType := none, bodyText := some "oops",
    bodyJson := none, bodyBytes := some [] }

/-- A 204 response with a binary-looking content type. -/
def resp204 : Response :=
  { status := 204, contentType := some "application/pdf", bodyText := some "",
    bodyJson := none, bodyBytes := some [] }

/-- A 2xx response declaring JSON whose body is not valid JSON. -/
def respBadJson : Response :=
  { status := 200, contentType := some "application/json; charset=utf-8",
    bodyText := some "not json", bodyJson := none, bodyBytes := some [] }

/-- Transport: 401, then a successful refresh, then 200. -/
def wRefresh : Transport := fun n =>
  if n = 0 then .ok resp401 else if n = 1 then .ok respRefreshOk else .ok resp200

/-- Transport: 401, then a transport error on the refresh call. -/
def wRefreshNetFail : Transport := fun n =>
  if n = 0 then .ok resp401 else .error "ECONNREFUSED"

/-- Transport: 401, then a non-OK refresh response. -/
def wRefreshBad : Transport := fun n =>
  if n = 0 then .ok resp401 else .ok respRefreshBad

/-- Transport: always the 204 response. -/
def w204 : Transport := fun _ => .ok resp204

/-- Transport: 401, successful refresh, then a 204 as the retried response. -/
def wRefresh204 : Transport := fun n =>
  if n = 0 then .ok resp401 else if n = 1 then .ok respRefreshOk else .ok resp204

/-- Transport: always the malformed-JSON response. -/
def wBadJson : Transport := fun _ => .ok respBadJson

/-- An empty file system (every read throws). -/
def fsEmpty : FileSys := fun _ => none

/-- A file system holding exactly one readable file. -/
def fsOne : FileSys := fun p => if p = "/tmp/a.pdf" then some [1, 2, 3] else none

/-- An environment with a trailing-slash base URL override. -/
def envSlash : Env :=
  { baseUrl := some "https://example.com/", token := none, refreshToken := none,
    companyId := none, email := none, password := none }

/-- Upload options: a file path together with a (to-be-ignored) JSON body. -/
def optsUp : RequestOptions :=
  { filePath := some "/tmp/a.pdf", body := some (.obj [("x", .num 1)]),
    formFields := some [("k", "v")] }

/-- Query options matching the spec scenario `{page:1, limit:undefined,
search:""}`. -/
def optsQ : RequestOptions :=
  { query := some [("page", .num 1), ("limit", .undef), ("search", .str "")] }

/-! ### Helper lemmas about assoc-list header/param operations -/

theorem lookupAssoc_cons (p : String × String) (l : List (String × String)) (k : String) :
    lookupAssoc (p :: l) k = if p.1 = k then some p.2 else lookupAssoc l k := by
  by_cases h : p.1 = k
  · simp [lookupAssoc, List.find?_cons, h]
  · simp [lookupAssoc, List.find?_cons, h]

theorem lookupAssoc_append (l tail : List (String × String)) (k : String) :
    lookupAssoc (l ++ tail) k =
      ((lookupAssoc l k).rec (lookupAssoc tail k) (fun v => some v) : Option String) := by
  induction l with
  | nil => rfl
  | cons p t ih =>
    by_cases hp : p.1 = k
    · simp [lookupAssoc_cons, hp]
    · simpa [lookupAssoc_cons, hp] using ih

theorem lookupAssoc_replaceMap_self (t : List (String × String)) (k v : String)
    (hany : t.any (fun p => p.1 == k) = true) :
    lookupAssoc (t.map (fun p => if p.1 == k then (k, v) else p)) k = some v := by
  induction t with
  | nil => simp at hany
  | cons p t ih =>
    by_cases hp : (p.1 == k) = true
    · rw [List.map_cons, if_pos hp, lookupAssoc_cons]
      simp
    · rw [List.map_cons, if_neg hp, lookupAssoc_cons]
      have hpk : ¬p.1 = k := by simpa using hp
      have ht : t.any (fun p => p.1 == k) = true := by
        simpa [List.any_cons, hp] using hany
      simp only [hpk, if_neg, not_false_iff]
      exact ih ht

theorem lookupAssoc_replaceMap_other (t : List (String × String)) (k v k' : String)
    (h : k' ≠ k) :
    lookupAssoc (t.map (fun p => if p.1 == k then (k, v) else p)) k' = lookupAssoc t k' := by
  induction t with
  | nil => rfl
  | cons p t ih =>
    by_cases hp : (p.1 == k) = true
    · have hpk : p.1 = k := by simpa using hp
      have h1 : ¬((k : String) = k') := fun e => h e.symm
      rw [List.map_cons, if_pos hp, lookupAssoc_cons, lookupAssoc_cons]
      simp only [hpk, h1, if_neg, not_false_iff]
      exact ih
    · rw [List.map_cons, if_neg hp, lookupAssoc_cons, lookupAssoc_cons]
      by_cases hq : p.1 = k'
      · simp [hq]
      · simp only [hq, if_neg, not_false_iff]
        exact ih

theorem lookupAssoc_none_of_any_false (l : List (String × String)) (k : String)
    (h : l.any (fun p => p.1 == k) = false) : lookupAssoc l k = none := by
  induction l with
  | nil => rfl
  | cons p t ih =>
    simp only [List.any_cons, Bool.or_eq_false_iff] at h
    have hp : ¬p.1 = k := by simpa using h.1
    simpa [lookupAssoc_cons, hp] using ih h.2

/-- After `setAssoc l k v`, looking up `k` yields `v`. -/
theorem lookupAssoc_setAssoc_self (l : List (String × String)) (k v : String) :
    lookupAssoc (setAssoc l k v) k = some v := by
  unfold setAssoc
  by_cases hany : l.any (fun p => p.1 == k)
  · rw [if_pos hany]
    exact lookupAssoc_replaceMap_self l k v hany
  · rw [if_neg hany, lookupAssoc_append,
      lookupAssoc_none_of_any_false l k (Bool.eq_false_iff.mpr hany)]
    simp [lookupAssoc_cons]

/-- `setAssoc` under a different key leaves a lookup unchanged. -/
theorem lookupAssoc_setAssoc_other (l : List (String × String)) (k v k' : String)
    (h : k' ≠ k) : lookupAssoc (setAssoc l k v) k' = lookupAssoc l k' := by
  unfold setAssoc
  by_cases hany : l.any (fun p => p.1 == k)
  · rw [if_pos hany]
    exact lookupAssoc_replaceMap_other l k v k' h
  · rw [if_neg hany, lookupAssoc_append]
    have h1 : ¬((k : String) = k') := fun e => h e.symm
    cases hl : lookupAssoc l k' with
    | none => simp [lookupAssoc_cons, h1, lookupAssoc]
    | some w => simp

/-- When no key of `l` equals `k`, `setAssoc` is plain append. -/
theorem setAssoc_of_not_mem (l : List (String × String)) (k v : String)
    (h : ∀ p ∈ l, p.1 ≠ k) : setAssoc l k v = l ++ [(k, v)] := by
  unfold setAssoc
  have : l.any (fun p => p.1 == k) = false := by
    simp only [List.any_eq_false]
    intro p hp
    simpa using h p hp
  simp [this]

/-! ### Characterization of query building, headers, body and parsing -/

theorem buildQueryParams_go (q : List (String × QueryValue)) (acc : List (String × String))
    (hnd : (q.map Prod.fst).Nodup)
    (hdisj : ∀ p ∈ q, ∀ a ∈ acc, a.1 ≠ p.1) :
    q.foldl (fun acc p => if p.2.kept then setAssoc acc p.1 p.2.toStr else acc) acc =
      acc ++ (q.filter (fun p => p.2.kept)).map (fun p => (p.1, p.2.toStr)) := by
  induction q generalizing acc with
  | nil => simp
  | cons p t ih =>
    rw [List.map_cons] at hnd
    have hnd2 := List.nodup_cons.mp hnd
    by_cases hk : p.2.kept
    · have hd : ∀ q' ∈ t, ∀ a ∈ acc ++ [(p.1, p.2.toStr)], a.1 ≠ q'.1 := by
        intro q' hq' a ha
        rcases List.mem_append.mp ha with ha' | ha'
        · exact hdisj q' (List.mem_cons_of_mem _ hq') a ha'
        · have ha1 : a.1 = p.1 := by
            rcases List.mem_singleton.mp ha' with rfl
            rfl
          rw [ha1]
          intro hEq
          exact hnd2.1 (by rw [hEq]; exact List.mem_map_of_mem Prod.fst hq')
      rw [List.foldl_cons, if_pos hk,
        setAssoc_of_not_mem _ _ _ (fun a ha => hdisj p (List.mem_cons_self _ _) a ha),
        ih (acc ++ [(p.1, p.2.toStr)]) hnd2.2 hd]
      simp [List.filter_cons, hk]
    · rw [List.foldl_cons, if_neg hk, ih acc hnd2.2
        (fun q' hq' a ha => hdisj q' (List.mem_cons_of_mem _ hq') a ha)]
      simp [List.filter_cons, hk]

/-- With unique keys, the query loop keeps exactly the non-dropped entries,
in order, with values string-coerced. -/
theorem buildQueryParams_eq (q : List (String × QueryValue))
    (hnd : (q.map Prod.fst).Nodup) :
    buildQueryParams q =
      (q.filter (fun p => p.2.kept)).map (fun p => (p.1, p.2.toStr)) := by
  simpa [buildQueryParams] using buildQueryParams_go q [] hnd (by simp)

/-- With unique keys, the value of a key is determined. -/
theorem key_unique {α : Type} (q : List (String × α)) (k : String) (v v' : α)
    (hnd : (q.map Prod.fst).Nodup) (h1 : (k, v) ∈ q) (h2 : (k, v') ∈ q) : v = v' := by
  induction q with
  | nil => cases h1
  | cons p t ih =>
    rw [List.map_cons] at hnd
    have hnd2 := List.nodup_cons.mp hnd
    rcases List.mem_cons.mp h1 with rfl | h1'
    · rcases List.mem_cons.mp h2 with hEq | h2'
      · exact (congrArg Prod.snd hEq).symm
      · exact absurd (List.mem_map_of_mem Prod.fst h2') hnd2.1
    · rcases List.mem_cons.mp h2 with rfl | h2'
      · exact absurd (List.mem_map_of_mem Prod.fst h1') hnd2.1
      · exact ih hnd2.2 h1' h2'

/-- `withCompanyHeader` only touches the `X-Company` key. -/
theorem withCompanyHeader_lookup_other (cfg : Config) (opts : RequestOptions)
    (h1 : List (String × String)) (k : String) (hk : k ≠ "X-Company") :
    lookupAssoc (withCompanyHeader cfg opts h1) k = lookupAssoc h1 k := by
  unfold withCompanyHeader
  by_cases he : optTruthy (effectiveCompanyId cfg opts) = true
  · rw [if_pos he, lookupAssoc_setAssoc_other _ _ _ _ hk]
  · rw [if_neg he]

theorem buildHeaders_auth (cfg : Config) (opts : RequestOptions) (t : String)
    (hna : opts.noAuth = false) (ht : cfg.token = some t) (hne : t ≠ "") :
    lookupAssoc (buildHeaders cfg opts) "Authorization" = some (authHeaderValue t) := by
  unfold buildHeaders
  rw [withCompanyHeader_lookup_other _ _ _ _ (by decide)]
  unfold withAuthHeader
  have htr : optTruthy cfg.token = true := by simp [optTruthy, ht, hne]
  rw [hna, htr, ht]
  simp only [Bool.not_false, Bool.and_self, if_pos, Option.getD_some]
  exact lookupAssoc_setAssoc_self _ _ _

/-- The computed-header phase never touches `Content-Type`. -/
theorem buildHeaders_contentType (cfg : Config) (opts : RequestOptions) :
    lookupAssoc (buildHeaders cfg opts) "Content-Type" =
      lookupAssoc opts.headers "Content-Type" := by
  unfold buildHeaders
  rw [withCompanyHeader_lookup_other _ _ _ _ (by decide)]
  unfold withAuthHeader
  by_cases h1 : (!opts.noAuth && optTruthy cfg.token) = true
  · rw [if_pos h1, lookupAssoc_setAssoc_other _ _ _ _ (by decide)]
  · rw [if_neg h1]

theorem buildBody_file (cfg : Config) (opts : RequestOptions) (fs : FileSys)
    (fp : String) (bytes : List Nat)
    (h1 : opts.filePath = some fp) (h2 : fs fp = some bytes) :
    buildBody cfg opts fs =
      .ok (.multipart (opts.fileFieldName.getD "file") (jsBasename fp) bytes
            (opts.formFields.getD []), buildHeaders cfg opts) := by
  simp [buildBody, h1, h2]

theorem buildBody_json (cfg : Config) (opts : RequestOptions) (fs : FileSys) (b : Json)
    (h1 : opts.filePath = none) (h2 : opts.body = some b) :
    buildBody cfg opts fs =
      .ok (.jsonBody b,
           setAssoc (buildHeaders cfg opts) "Content-Type" "application/json") := by
  simp [buildBody, h1, h2]

theorem buildBody_empty (cfg : Config) (opts : RequestOptions) (fs : FileSys)
    (h1 : opts.filePath = none) (h2 : opts.body = none) :
    buildBody cfg opts fs = .ok (.empty, buildHeaders cfg opts) := by
  simp [buildBody, h1, h2]

/-- When the upload file (if any) is readable, body construction succeeds. -/
theorem buildBody_isOk (cfg : Config) (opts : RequestOptions) (fs : FileSys)
    (hfile : ∀ fp, opts.filePath = some fp → (fs fp).isSome = true) :
    ∃ bh, buildBody cfg opts fs = .ok bh := by
  cases hfp : opts.filePath with
  | some fp =>
    cases hb : fs fp with
    | none =>
      have := hfile fp hfp
      rw [hb] at this
      simp at this
    | some bytes => exact ⟨_, buildBody_file cfg opts fs fp bytes hfp hb⟩
  | none =>
    cases hbd : opts.body with
    | some b => exact ⟨_, buildBody_json cfg opts fs b hfp hbd⟩
    | none => exact ⟨_, buildBody_empty cfg opts fs hfp hbd⟩

/-- A non-OK response always parses to a returned `Failure` carrying its
status (the unguarded binary body read happens only on the OK path). -/
theorem parseResponse_notOk (b : Bool) (r : Response) (h : r.isOk = false) :
    ∃ e d, parseResponse b r = .result (.failure r.status e d) := by
  have h204 : (r.status == 204) = false := by
    by_cases h4 : r.status = 204
    · have hOk : r.isOk = true := by rw [Response.isOk, h4]; decide
      rw [hOk] at h
      cases h
    · simpa using h4
  cases b with
  | true =>
    exact ⟨r.bodyText.getD "Unknown error", none, by simp [parseResponse, h]⟩
  | false =>
    by_cases hct : contentTypeIsJson r.contentType = true
    · cases hj : r.bodyJson with
      | none =>
        exact ⟨"Failed to parse JSON response", none,
          by simp [parseResponse, h, h204, hct, hj]⟩
      | some j =>
        exact ⟨jsonErrText j r.status, some j,
          by simp [parseResponse, h, h204, hct, hj]⟩
    · refine ⟨if r.bodyText.getD "" == "" then "HTTP " ++ toString r.status
        else r.bodyText.getD "", none, ?_⟩
      simp [parseResponse, h, h204, hct]

/-- Parsing returns a value whenever the binary body read (the one unguarded
read) succeeds when it is reached. -/
theorem parseResponse_isResult (b : Bool) (r : Response)
    (h : b = true → (r.bodyBytes).isSome = true) :
    (parseResponse b r).isResult = true := by
  cases b with
  | true =>
    have hbs := h rfl
    cases hbb : r.bodyBytes with
    | none =>
      rw [hbb] at hbs
      simp at hbs
    | some bytes =>
      by_cases hok : r.isOk = true
      · simp [parseResponse, hok, hbb, Outcome.isResult]
      · simp [parseResponse, hok, Outcome.isResult]
  | false =>
    by_cases h204 : (r.status == 204) = true
    · simp [parseResponse, h204, Outcome.isResult]
    · by_cases hct : contentTypeIsJson r.contentType = true
      · cases hj : r.bodyJson with
        | none => simp [parseResponse, h204, hct, hj, Outcome.isResult]
        | some j =>
          by_cases hok : r.isOk = true
          · simp [parseResponse, h204, hct, hj, hok, Outcome.isResult]
          · simp [parseResponse, h204, hct, hj, hok, Outcome.isResult]
      · by_cases hok : r.isOk = true
        · simp [parseResponse, h204, hct, hok, Outcome.isResult]
        · simp [parseResponse, h204, hct, hok, Outcome.isResult]

/-- Whenever a final response exists, the executor's outcome is its parse. -/
theorem apiRequest_outcome_parse (cfg : Config) (w : Transport) (fs : FileSys)
    (path : String) (opts : RequestOptions)
    (bh : OutBody × List (String × String)) (r : Response)
    (hb : buildBody cfg opts fs = .ok bh)
    (hfr : finalResponse cfg w opts = some r) :
    (apiRequest cfg w fs path opts).outcome = parseResponse opts.binary r := by
  unfold apiRequest
  rw [hb]
  unfold apiRequestCore
  unfold finalResponse at hfr
  cases h0 : w 0 with
  | error e =>
    rw [h0] at hfr
    exact absurd hfr (by simp)
  | ok res0 =>
    rw [h0] at hfr
    dsimp only at hfr ⊢
    by_cases hc : (res0.status == 401 && !opts.noAuth && optTruthy cfg.refreshToken) = true
    · rw [if_pos hc] at hfr ⊢
      cases hr : refreshStep cfg (w 1) with
      | none =>
        rw [hr] at hfr
        injection hfr with hfr2
        subst hfr2
        rfl
      | some cfg2 =>
        rw [hr] at hfr
        cases h2 : w 2 with
        | error e =>
          rw [h2] at hfr
          exact Option.noConfusion hfr
        | ok res2 =>
          rw [h2] at hfr
          injection hfr with hfr2
          subst hfr2
          rfl
    · rw [if_neg hc] at hfr ⊢
      injection hfr with hfr2
      subst hfr2
      rfl

/-! ### Shared executor lemmas -/

/-- With a successfully built body, the original request heads the trace in
every execution path. -/
theorem apiRequest_headI (cfg : Config) (w : Transport) (fs : FileSys)
    (path : String) (opts : RequestOptions) (bh : OutBody × List (String × String))
    (hb : buildBody cfg opts fs = .ok bh) :
    (apiRequest cfg w fs path opts).trace.headI =
      mkMainRequest cfg path opts bh.1 bh.2 := by
  unfold apiRequest
  rw [hb]
  unfold apiRequestCore
  cases w 0 with
  | error e => rfl
  | ok r =>
    dsimp only
    by_cases hc : (r.status == 401 && !opts.noAuth && optTruthy cfg.refreshToken) = true
    · rw [if_pos hc]
      cases refreshStep cfg (w 1) with
      | none => rfl
      | some cfg2 =>
        cases w 2 with
        | error e => rfl
        | ok r2 => rfl
    · rw [if_neg hc]
      rfl

/-- A keyed list with unique keys holds a given key exactly once. -/
theorem countP_eq_one_of_uniqueKeys {α : Type} (l : List (String × α)) (k : String)
    (v : α) (hnd : (l.map Prod.fst).Nodup) (hmem : (k, v) ∈ l) :
    l.countP (fun p => p.1 == k) = 1 := by
  induction l with
  | nil => cases hmem
  | cons p t ih =>
    rw [List.map_cons] at hnd
    have hnd2 := List.nodup_cons.mp hnd
    rcases List.mem_cons.mp hmem with rfl | hm
    · rw [List.countP_cons]
      have ht : t.countP (fun p => p.1 == k) = 0 := by
        rw [List.countP_eq_zero]
        intro a ha hEq
        have hak : a.1 = k := by simpa using hEq
        refine hnd2.1 ?_
        show k ∈ List.map Prod.fst t
        rw [← hak]
        exact List.mem_map_of_mem Prod.fst ha
      simp [ht]
    · have hp : ¬(p.1 == k) = true := by
        intro hEq
        have hpk : p.1 = k := by simpa using hEq
        refine hnd2.1 ?_
        show p.1 ∈ List.map Prod.fst t
        rw [hpk]
        exact List.mem_map_of_mem Prod.fst hm
      rw [List.countP_cons]
      simp only [hp, if_neg, Bool.false_eq_true, not_false_iff]
      simpa using ih hnd2.2 hm

/-! ### Claims -/

/-- C3: for every request built with `noAuth` unset and an access token
present, the Authorization header of the initial outbound request equals the
token verbatim when it starts with `af_`, else `"Bearer " ++ token`. -/
theorem C3_initial_authorization_header (cfg : Config) (w : Transport)
    (fs : FileSys) (path : String) (opts : RequestOptions) (t : String)
    (hfile : ∀ fp, opts.filePath = some fp → (fs fp).isSome = true)
    (hna : opts.noAuth = false) (ht : cfg.token = some t) (hne : t ≠ "") :
    lookupAssoc ((apiRequest cfg w fs path opts).trace.headI.headers)
        "Authorization" =
      some (if t.startsWith "af_" then t else "Bearer " ++ t) := by
  cases hfp : opts.filePath with
  | some fp =>
    cases hfs : fs fp with
    | none =>
      have := hfile fp hfp
      rw [hfs] at this
      simp at this
    | some bytes =>
      rw [apiRequest_headI cfg w fs path opts _
        (buildBody_file cfg opts fs fp bytes hfp hfs)]
      show lookupAssoc (buildHeaders cfg opts) "Authorization" = _
      rw [buildHeaders_auth cfg opts t hna ht hne]
      rfl
  | none =>
    cases hbd : opts.body with
    | some b =>
      rw [apiRequest_headI cfg w fs path opts _
        (buildBody_json cfg opts fs b hfp hbd)]
      show lookupAssoc
        (setAssoc (buildHeaders cfg opts) "Content-Type" "application/json")
        "Authorization" = _
      rw [lookupAssoc_setAssoc_other _ _ _ _ (by decide),
        buildHeaders_auth cfg opts t hna ht hne]
      rfl
    | none =>
      rw [apiRequest_headI cfg w fs path opts _
        (buildBody_empty cfg opts fs hfp hbd)]
      show lookupAssoc (buildHeaders cfg opts) "Authorization" = _
      rw [buildHeaders_auth cfg opts t hna ht hne]
      rfl

/-- C3 witness: a session holding the key `af_key1` sends it verbatim. -/
theorem C3_witness :
    lookupAssoc
        ((apiRequest cfgKey wRefresh fsEmpty "/api/invoices" {}).trace.headI.headers)
        "Authorization" =
      some (if ("af_key1".startsWith "af_") then "af_key1"
            else "Bearer " ++ "af_key1") :=
  C3_initial_authorization_header cfgKey wRefresh fsEmpty "/api/invoices" {}
    "af_key1" (fun fp h => nomatch h) rfl rfl (by decide)

/-- C8: when a file path is supplied, the outbound body is the multipart
form (file under the configured field name, default `file`, plus the extra
form fields); it is never the JSON body, and the executor does not set a
`Content-Type` header. -/
theorem C8_multipart_upload (cfg : Config) (w : Transport) (fs : FileSys)
    (path : String) (opts : RequestOptions) (fp : String) (bytes : List Nat)
    (hfp : opts.filePath = some fp) (hfs : fs fp = some bytes) :
    (apiRequest cfg w fs path opts).trace.headI.body =
      .multipart (opts.fileFieldName.getD "file") (jsBasename fp) bytes
        (opts.formFields.getD []) ∧
    (∀ b : Json, (apiRequest cfg w fs path opts).trace.headI.body ≠ .jsonBody b) ∧
    lookupAssoc ((apiRequest cfg w fs path opts).trace.headI.headers)
        "Content-Type" =
      lookupAssoc opts.headers "Content-Type" := by
  rw [apiRequest_headI cfg w fs path opts _
    (buildBody_file cfg opts fs fp bytes hfp hfs)]
  refine ⟨rfl, ?_, ?_⟩
  · intro b h
    exact OutBody.noConfusion h
  · exact buildHeaders_contentType cfg opts

/-- C8 witness: uploading `/tmp/a.pdf` with an extra form field and a JSON
body option yields the multipart body and leaves `Content-Type` unset. -/
theorem C8_witness :
    (apiRequest cfgJwt wRefresh fsOne "/up" optsUp).trace.headI.body =
      .multipart "file" "a.pdf" [1, 2, 3] [("k", "v")] ∧
    (apiRequest cfgJwt wRefresh fsOne "/up" optsUp).trace.headI.body ≠
      .jsonBody (.obj [("x", .num 1)]) ∧
    lookupAssoc ((apiRequest cfgJwt wRefresh fsOne "/up" optsUp).trace.headI.headers)
        "Content-Type" = none := by
  have h := C8_multipart_upload cfgJwt wRefresh fsOne "/up" optsUp
    "/tmp/a.pdf" [1, 2, 3] rfl rfl
  refine ⟨?_, h.2.1 (.obj [("x", .num 1)]), h.2.2.trans rfl⟩
  rw [h.1]
  rfl

/-- C4 counterexample: a file-upload request whose path cannot be read makes
the executor throw (the `readFileSync` call is not guarded), contradicting
the claim that it never throws. -/
theorem C4_counterexample :
    (apiRequest cfgJwt wRefresh fsEmpty "/up"
        { filePath := some "/tmp/missing.pdf" }).outcome =
      .threw "ENOENT: no such file or directory, open /tmp/missing.pdf" := rfl

/-- C4 amended: the executor is not exception-free. Three sites are
unguarded: `readFileSync` for uploads, `await res.arrayBuffer()` on the
binary-OK path, and `new URL` on a malformed base URL (the last is outside
this embedding, whose URL build is total concatenation). Provided the upload
file (if any) is readable and the body reads of delivered responses succeed
when `binary` is set, the executor returns a value of the tagged union:
transport errors, JSON-parse failures and text-body reads are caught. -/
theorem C4_no_throw (cfg : Config) (w : Transport) (fs : FileSys)
    (path : String) (opts : RequestOptions)
    (hfile : ∀ fp, opts.filePath = some fp → (fs fp).isSome = true)
    (hbytes : ∀ n r, w n = .ok r → opts.binary = true →
      (r.bodyBytes).isSome = true) :
    (apiRequest cfg w fs path opts).outcome.isResult = true := by
  obtain ⟨bh, hb⟩ := buildBody_isOk cfg opts fs hfile
  unfold apiRequest
  rw [hb]
  unfold apiRequestCore
  cases h0 : w 0 with
  | error e => rfl
  | ok r =>
    dsimp only
    by_cases hc : (r.status == 401 && !opts.noAuth && optTruthy cfg.refreshToken) = true
    · rw [if_pos hc]
      cases refreshStep cfg (w 1) with
      | none =>
        exact parseResponse_isResult opts.binary r (fun hbv => hbytes 0 r h0 hbv)
      | some cfg2 =>
        cases h2 : w 2 with
        | error e => rfl
        | ok r2 =>
          exact parseResponse_isResult opts.binary r2 (fun hbv => hbytes 2 r2 h2 hbv)
    · rw [if_neg hc]
      exact parseResponse_isResult opts.binary r (fun hbv => hbytes 0 r h0 hbv)

/-- C4 witness: with the one readable file and readable bodies, the upload
call returns a value. -/
theorem C4_witness :
    (apiRequest cfgJwt wRefresh fsOne "/up" optsUp).outcome.isResult = true :=
  C4_no_throw cfgJwt wRefresh fsOne "/up" optsUp
    (fun fp h => by cases h; rfl)
    (fun n r hw hb => nomatch hb)

/-- C1: on a first 401 (auth not bypassed, refresh token present) followed by
a successful refresh, the executor issues exactly the three requests
original–refresh–retry (two to the target URL, one to the refresh endpoint),
and the returned result is parsed from the retried response; since the
retried response `res2` is unconstrained (it may itself be a 401), the
three-element trace also shows that no second refresh is attempted. -/
theorem C1_refresh_protocol (cfg : Config) (w : Transport) (fs : FileSys)
    (path : String) (opts : RequestOptions) (res0 res1 res2 : Response) (j : Json)
    (hfile : ∀ fp, opts.filePath = some fp → (fs fp).isSome = true)
    (hna : opts.noAuth = false) (hrt : optTruthy cfg.refreshToken = true)
    (h0 : w 0 = .ok res0) (h401 : res0.status = 401)
    (h1 : w 1 = .ok res1) (h1ok : res1.isOk = true) (h1j : res1.bodyJson = some j)
    (h2 : w 2 = .ok res2) :
    (apiRequest cfg w fs path opts).trace.map (fun r => r.url) =
      [renderUrl cfg.baseUrl path (buildQueryParams (opts.query.getD [])),
       cfg.baseUrl ++ "/api/auth/token/refresh",
       renderUrl cfg.baseUrl path (buildQueryParams (opts.query.getD []))] ∧
    (apiRequest cfg w fs path opts).outcome =
      parseResponse opts.binary res2 := by
  obtain ⟨bh, hb⟩ := buildBody_isOk cfg opts fs hfile
  have hr : refreshStep cfg (w 1) = some
      { cfg with token := j.getString? "token",
                 refreshToken := j.getString? "refresh_token" } := by
    rw [h1]
    simp [refreshStep, h1ok, h1j]
  have hcond : (res0.status == 401 && !opts.noAuth && optTruthy cfg.refreshToken)
      = true := by
    simp [h401, hna, hrt]
  unfold apiRequest
  rw [hb]
  unfold apiRequestCore
  rw [h0]
  dsimp only
  rw [if_pos hcond, hr, h2]
  exact ⟨rfl, rfl⟩

/-- C1 witness: a 401 followed by a successful refresh and a retried 200. -/
theorem C1_witness :
    (apiRequest cfgJwt wRefresh fsEmpty "/api/invoices" {}).trace.map
        (fun r => r.url) =
      [renderUrl cfgJwt.baseUrl "/api/invoices"
         (buildQueryParams (({} : RequestOptions).query.getD [])),
       cfgJwt.baseUrl ++ "/api/auth/token/refresh",
       renderUrl cfgJwt.baseUrl "/api/invoices"
         (buildQueryParams (({} : RequestOptions).query.getD []))] ∧
    (apiRequest cfgJwt wRefresh fsEmpty "/api/invoices" {}).outcome =
      parseResponse false resp200 :=
  C1_refresh_protocol cfgJwt wRefresh fsEmpty "/api/invoices" {}
    resp401 respRefreshOk resp200 (.obj [("token", .str "af_new"),
      ("refresh_token", .str "rt2")])
    (fun fp h => nomatch h) rfl rfl rfl rfl rfl rfl rfl rfl

/-- C2: on a first 401 (auth not bypassed, refresh token present) whose
refresh attempt fails — transport error or non-OK refresh response — the
executor returns the Failure parsed from the original 401 response; no error
derived from the refresh attempt is surfaced. -/
theorem C2_refresh_failure_fallback (cfg : Config) (w : Transport) (fs : FileSys)
    (path : String) (opts : RequestOptions) (res0 : Response)
    (hfile : ∀ fp, opts.filePath = some fp → (fs fp).isSome = true)
    (hna : opts.noAuth = false) (hrt : optTruthy cfg.refreshToken = true)
    (h0 : w 0 = .ok res0) (h401 : res0.status = 401)
    (hfail : (∃ e, w 1 = .error e) ∨
      (∃ res1, w 1 = .ok res1 ∧ res1.isOk = false)) :
    (apiRequest cfg w fs path opts).outcome =
      parseResponse opts.binary res0 ∧
    (parseResponse opts.binary res0).isFailure = true ∧
    (parseResponse opts.binary res0).statusOf? = some 401 := by
  obtain ⟨bh, hb⟩ := buildBody_isOk cfg opts fs hfile
  have hr : refreshStep cfg (w 1) = none := by
    rcases hfail with ⟨e, he⟩ | ⟨res1, he, hok⟩
    · rw [he]
      rfl
    · rw [he]
      simp [refreshStep, hok]
  have hcond : (res0.status == 401 && !opts.noAuth && optTruthy cfg.refreshToken)
      = true := by
    simp [h401, hna, hrt]
  have hnotOk : res0.isOk = false := by
    rw [Response.isOk, h401]
    decide
  obtain ⟨e, d, hp⟩ := parseResponse_notOk opts.binary res0 hnotOk
  refine ⟨?_, ?_, ?_⟩
  · unfold apiRequest
    rw [hb]
    unfold apiRequestCore
    rw [h0]
    dsimp only
    rw [if_pos hcond, hr]
  · rw [hp]
    rfl
  · rw [hp, h401]
    rfl

/-- C2 witness: a 401 followed by a refresh transport error falls back to
the Failure parsed from the original 401. -/
theorem C2_witness :
    (apiRequest cfgJwt wRefreshNetFail fsEmpty "/api/invoices" {}).outcome =
      parseResponse false resp401 ∧
    (parseResponse false resp401).isFailure = true ∧
    (parseResponse false resp401).statusOf? = some 401 :=
  C2_refresh_failure_fallback cfgJwt wRefreshNetFail fsEmpty "/api/invoices" {}
    resp401 (fun fp h => nomatch h) rfl rfl rfl rfl
    (Or.inl ⟨"ECONNREFUSED", rfl⟩)

/-- C10: whenever the 401-triggered refresh succeeds with a stored new token,
the retried request's Authorization header is `"Bearer " ++ newToken`, even
when the new token starts with `af_` — the verbatim-key branch is never
applied on the retry. -/
theorem C10_retry_header_always_bearer (cfg : Config) (w : Transport)
    (fs : FileSys) (path : String) (opts : RequestOptions)
    (res0 res1 : Response) (j : Json) (nt : String)
    (hfile : ∀ fp, opts.filePath = some fp → (fs fp).isSome = true)
    (hna : opts.noAuth = false) (hrt : optTruthy cfg.refreshToken = true)
    (h0 : w 0 = .ok res0) (h401 : res0.status = 401)
    (h1 : w 1 = .ok res1) (h1ok : res1.isOk = true) (h1j : res1.bodyJson = some j)
    (hnt : j.getString? "token" = some nt) :
    lookupAssoc (((apiRequest cfg w fs path opts).trace.getLastD default).headers)
        "Authorization" = some ("Bearer " ++ nt) := by
  obtain ⟨bh, hb⟩ := buildBody_isOk cfg opts fs hfile
  have hr : refreshStep cfg (w 1) = some
      { cfg with token := j.getString? "token",
                 refreshToken := j.getString? "refresh_token" } := by
    rw [h1]
    simp [refreshStep, h1ok, h1j]
  have hcond : (res0.status == 401 && !opts.noAuth && optTruthy cfg.refreshToken)
      = true := by
    simp [h401, hna, hrt]
  have hgen : ∀ cfg2 : Config, cfg2.token = some nt →
      lookupAssoc ((mkRetryRequest cfg cfg2 path opts bh.1 bh.2).headers)
        "Authorization" = some ("Bearer " ++ nt) := by
    intro cfg2 h2
    show lookupAssoc (setAssoc bh.2 "Authorization" (bearerOf cfg2.token))
      "Authorization" = _
    rw [lookupAssoc_setAssoc_self, h2]
    rfl
  unfold apiRequest
  rw [hb]
  unfold apiRequestCore
  rw [h0]
  dsimp only
  rw [if_pos hcond, hr]
  cases w 2 with
  | error e => exact hgen _ hnt
  | ok r2 => exact hgen _ hnt

/-- C10 witness: the refreshed token `af_new` is still sent Bearer-wrapped
on the retry. -/
theorem C10_witness :
    lookupAssoc
        (((apiRequest cfgJwt wRefresh fsEmpty "/api/x" {}).trace.getLastD
            default).headers) "Authorization" =
      some ("Bearer " ++ "af_new") :=
  C10_retry_header_always_bearer cfgJwt wRefresh fsEmpty "/api/x" {}
    resp401 respRefreshOk
    (.obj [("token", .str "af_new"), ("refresh_token", .str "rt2")]) "af_new"
    (fun fp h => nomatch h) rfl rfl rfl rfl rfl rfl rfl rfl

/-- C5 counterexample: with `binary` set, a 204 response is handled by the
binary branch (which precedes the 204 check), so the result is the base64
payload, not `Success{204, data:null}` — the claim's "regardless of the
expectBinary flag" fails. -/
theorem C5_counterexample :
    (apiRequest cfgJwt w204 fsEmpty "/x" { binary := true }).outcome =
      .result (.successBinary 204 "" (some "application/pdf")) ∧
    (apiRequest cfgJwt w204 fsEmpty "/x" { binary := true }).outcome ≠
      .result (.successNull 204) := by
  refine ⟨rfl, ?_⟩
  intro h
  rw [show (apiRequest cfgJwt w204 fsEmpty "/x" { binary := true }).outcome =
      .result (.successBinary 204 "" (some "application/pdf")) from rfl] at h
  simp at h

/-- C5 amended: with `binary` unset, a call whose (possibly retried) final
response has status 204 returns `Success{204, data:null}` regardless of the
content-type. -/
theorem C5_nonbinary_204 (cfg : Config) (w : Transport) (fs : FileSys)
    (path : String) (opts : RequestOptions) (r : Response)
    (hfile : ∀ fp, opts.filePath = some fp → (fs fp).isSome = true)
    (hbin : opts.binary = false)
    (hfr : finalResponse cfg w opts = some r) (h204 : r.status = 204) :
    (apiRequest cfg w fs path opts).outcome = .result (.successNull 204) := by
  obtain ⟨bh, hb⟩ := buildBody_isOk cfg opts fs hfile
  rw [apiRequest_outcome_parse cfg w fs path opts bh r hb hfr, hbin]
  simp [parseResponse, h204]

/-- C5 witness: a 204 with a PDF content-type arriving as the retried
response after a 401 and a successful refresh, with `binary` unset. -/
theorem C5_witness :
    (apiRequest cfgJwt wRefresh204 fsEmpty "/x" {}).outcome =
      .result (.successNull 204) :=
  C5_nonbinary_204 cfgJwt wRefresh204 fsEmpty "/x" {} resp204
    (fun fp h => nomatch h) rfl rfl rfl

/-- C6: with `binary` unset, whenever the response the executor ends up
parsing — the first response, the original 401 after a failed refresh, or
the retried response — has status ≠ 204 and declares a JSON content-type but
fails to parse, the executor returns
`Failure{status, "Failed to parse JSON response"}`, even for a 2xx status. -/
theorem C6_json_parse_failure (cfg : Config) (w : Transport) (fs : FileSys)
    (path : String) (opts : RequestOptions) (r : Response)
    (hfile : ∀ fp, opts.filePath = some fp → (fs fp).isSome = true)
    (hbin : opts.binary = false)
    (hfr : finalResponse cfg w opts = some r)
    (h204 : r.status ≠ 204)
    (hct : contentTypeIsJson r.contentType = true) (hj : r.bodyJson = none) :
    (apiRequest cfg w fs path opts).outcome =
      .result (.failure r.status "Failed to parse JSON response" none) := by
  obtain ⟨bh, hb⟩ := buildBody_isOk cfg opts fs hfile
  have h204b : (r.status == 204) = false := by simpa using h204
  rw [apiRequest_outcome_parse cfg w fs path opts bh r hb hfr, hbin]
  simp [parseResponse, h204b, hct, hj]

/-- C6 witness: a 200 response declaring JSON with an unparseable body. -/
theorem C6_witness :
    (apiRequest cfgJwt wBadJson fsEmpty "/x" {}).outcome =
      .result (.failure 200 "Failed to parse JSON response" none) :=
  C6_json_parse_failure cfgJwt wBadJson fsEmpty "/x" {} respBadJson
    (fun fp h => nomatch h) rfl rfl (by decide) rfl rfl

/-- C7: for every query map (JS objects have unique keys), the built URL's
query parameters exclude every key whose value is `undefined`, `null` or the
empty string, and contain every other key exactly once with its value
string-coerced. -/
theorem C7_query_string (cfg : Config) (w : Transport) (fs : FileSys)
    (path : String) (opts : RequestOptions) (q : List (String × QueryValue))
    (hfile : ∀ fp, opts.filePath = some fp → (fs fp).isSome = true)
    (hq : opts.query = some q) (hnd : (q.map Prod.fst).Nodup) :
    ∀ k v, (k, v) ∈ q →
      (v.kept = false →
        ∀ s, (k, s) ∉ (apiRequest cfg w fs path opts).trace.headI.queryParams) ∧
      (v.kept = true →
        (apiRequest cfg w fs path opts).trace.headI.queryParams.countP
            (fun p => p.1 == k) = 1 ∧
        (k, v.toStr) ∈ (apiRequest cfg w fs path opts).trace.headI.queryParams) := by
  obtain ⟨bh, hb⟩ := buildBody_isOk cfg opts fs hfile
  rw [apiRequest_headI cfg w fs path opts _ hb]
  simp only [mkMainRequest]
  rw [hq]
  simp only [Option.getD_some]
  rw [buildQueryParams_eq q hnd]
  intro k v hmem
  constructor
  · intro hkept s hs
    rcases List.mem_map.mp hs with ⟨p, hp, hpe⟩
    have hpq := List.mem_filter.mp hp
    have hk1 : p.1 = k := by
      have := congrArg Prod.fst hpe
      simpa using this
    have hv : p.2 = v := by
      refine key_unique q k p.2 v hnd ?_ hmem
      have hmem2 : (p.1, p.2) ∈ q := by simpa using hpq.1
      rwa [hk1] at hmem2
    have hkv : v.kept = true := by
      rw [← hv]
      exact hpq.2
    rw [hkept] at hkv
    cases hkv
  · intro hkept
    have hmemf : (k, v) ∈ q.filter (fun p => p.2.kept) :=
      List.mem_filter.mpr ⟨hmem, hkept⟩
    refine ⟨?_, List.mem_map_of_mem _ hmemf⟩
    refine countP_eq_one_of_uniqueKeys _ k v.toStr ?_
      (List.mem_map_of_mem _ hmemf)
    have hmapmap : ((q.filter (fun p => p.2.kept)).map
        (fun p => (p.1, p.2.toStr))).map Prod.fst =
        (q.filter (fun p => p.2.kept)).map Prod.fst := by
      rw [List.map_map]
      rfl
    rw [hmapmap]
    exact List.Nodup.sublist (List.Sublist.map Prod.fst (List.filter_sublist q)) hnd

/-- C7 witness: the spec scenario `{page:1, limit:undefined, search:""}`
keeps only `page=1`. -/
theorem C7_witness :
    (apiRequest cfgJwt wRefresh fsEmpty "/api/list" optsQ).trace.headI.queryParams.countP
        (fun p => p.1 == "page") = 1 ∧
    ("page", "1") ∈
      (apiRequest cfgJwt wRefresh fsEmpty "/api/list" optsQ).trace.headI.queryParams ∧
    ("search", "") ∉
      (apiRequest cfgJwt wRefresh fsEmpty "/api/list" optsQ).trace.headI.queryParams := by
  have h := C7_query_string cfgJwt wRefresh fsEmpty "/api/list" optsQ
    [("page", .num 1), ("limit", .undef), ("search", .str "")]
    (fun fp hf => nomatch hf) rfl (by decide)
  have hpage := (h "page" (.num 1) (List.mem_cons_self _ _)).2 rfl
  have hsearch := (h "search" (.str "")
    (List.mem_cons_of_mem _ (List.mem_cons_of_mem _ (List.mem_cons_self _ _)))).1 rfl
  exact ⟨hpage.1, hpage.2, hsearch ""⟩

/-- C9 counterexample: `updateConfig` is a plain shallow merge, so an update
that carries a `baseUrl` field does change the stored base URL — the claim's
"no subsequent update operation changes it" fails. -/
theorem C9_counterexample :
    (getConfigOp envSlash
        (updateConfigOp envSlash (getConfigOp envSlash none).2
          { baseUrl := some "http://other" })).1.baseUrl = "http://other" ∧
    (getConfigOp envSlash none).1.baseUrl = "https://example.com" ∧
    ("http://other" : String) ≠ "https://example.com" := by
  refine ⟨rfl, by decide, by decide⟩

/-- C9 amended: the base URL is set at first access (from configuration,
with a trailing slash stripped) and is preserved by every update that does
not carry a `baseUrl` field (no call site in the repository passes one). -/
theorem C9_baseUrl_update_stable (env : Env) (st : Option Config)
    (u : ConfigUpdate) (hu : u.baseUrl = none) :
    (getConfigOp env none).1.baseUrl =
      stripTrailingSlash (envOr env.baseUrl "https://api.storno.ro") ∧
    (getConfigOp env (updateConfigOp env st u)).1.baseUrl =
      (getConfigOp env st).1.baseUrl := by
  refine ⟨rfl, ?_⟩
  cases st with
  | none => simp [getConfigOp, updateConfigOp, applyUpdate, hu]
  | some c => simp [getConfigOp, updateConfigOp, applyUpdate, hu]

/-- C9 witness: a token-only update leaves the stripped base URL unchanged. -/
theorem C9_witness :
    (getConfigOp envSlash none).1.baseUrl =
      stripTrailingSlash (envOr envSlash.baseUrl "https://api.storno.ro") ∧
    (getConfigOp envSlash
        (updateConfigOp envSlash (getConfigOp envSlash none).2
          { token := some (some "t2") })).1.baseUrl =
      (getConfigOp envSlash (getConfigOp envSlash none).2).1.baseUrl :=
  C9_baseUrl_update_stable envSlash (getConfigOp envSlash none).2
    { token := some (some "t2") } rfl
